import Mathlib

/- Shallow embedding of the date/time settings page of cosmic-settings
   (src/cosmic-settings/src/pages/time/date.rs).

   The page is a message-reducer state machine.  All I/O (zbus calls to the
   timedate service, reads/writes of the cosmic applet configuration store,
   the wall clock, the LANG environment variable and the icu formatter) is
   modelled by explicit environment records whose fields hold the outcome of
   each fallible external call; the reducer and the helper functions are then
   translated branch for branch from the Rust source. -/

namespace TimeDate

/-- A calendar/clock sample, the payload of a chrono/icu `DateTime<Iso>`
value as produced by the free function `update_local_time()` in the source
(year, month, day, hour, minute, second). -/
structure DateTimeSample where
  year : Int
  month : Nat
  day : Nat
  hour : Nat
  minute : Nat
  second : Nat
deriving DecidableEq

/-- Result of Rust code that can panic: either a value, or a panic carrying
the panic message (`unwrap` / `expect` in the source). -/
inductive PanicOr (α : Type) where
  | ok (val : α)
  | panicked (msg : String)
deriving DecidableEq

/-- Outcome of the environment interactions performed by `locale()` in the
source: the value of the LANG environment variable (`none` = `env::var`
returned an error) and the behaviour of `Locale::from_str` on the part of
LANG before the first dot (`none` = parse error). A parsed locale is
represented by its string. -/
structure LocaleEnv where
  lang : Option String
  locale_from_str : String → Option String

/-- Rust `str::split` on a single separator character, over the character
list of the string: the list of segments (always non-empty, like the Rust
iterator which always yields at least one item). -/
def split_chars (sep : Char) : List Char → List (List Char)
  | [] => [[]]
  | c :: cs =>
    if c = sep then [] :: split_chars sep cs
    else
      match split_chars sep cs with
      | [] => [[c]]
      | seg :: segs => (c :: seg) :: segs

/-- `fn locale()` from the source: read LANG, take the segment before the
first dot (`split('.').next()`, with the `ok_or` arm for an empty
iterator), parse it as a locale; any failure is an error (`none`). -/
def locale (lenv : LocaleEnv) : Option String :=
  match lenv.lang with
  | none => none
  | some lang =>
    match (split_chars ('.') lang.toList).head? with
    | none => none
    | some first => lenv.locale_from_str (String.mk first)

/-- The hour-cycle preference put into the icu component bag by
`format_date`: H23 when `military` is set, H12 otherwise.  The rest of the
bag (numeric year, long month, numeric day/hour/minute) is fixed, so the
bag is determined by the hour cycle. -/
inductive HourCycle where
  | h23
  | h12
deriving DecidableEq

def bag_hour_cycle (military : Bool) : HourCycle :=
  if military then .h23 else .h12

/-- An icu `DateTimeFormatter` handle, abstract. -/
abbrev Formatter := Nat

/-- Outcome of the icu library calls made by `format_date`:
`try_new_experimental` builds a formatter from a locale and the component
bag (summarised by its hour cycle), `format_value` formats a sample with a
formatter; `none` models the fallible branch of each call. -/
structure FormatterEnv where
  try_new_experimental : String → HourCycle → Option Formatter
  format_value : Formatter → DateTimeSample → Option String

/-- Panic message of `DateTimeFormatter::try_new_experimental(..).unwrap()`. -/
def panic_unwrap_msg : String := "called Option unwrap on a None value"

/-- Panic message of `.format(..).expect(..)` in `format_date`. -/
def panic_expect_msg : String := "cannot format value"

/-- `fn format_date(date, military)` from the source.  If `locale()` fails
the function returns the empty string; otherwise the formatter is built with
`.unwrap()` and the value formatted with `.expect(..)`, so a failure of
either icu call is a panic, not a fallback. -/
def format_date (lenv : LocaleEnv) (fenv : FormatterEnv)
    (date : DateTimeSample) (military : Bool) : PanicOr String :=
  match locale lenv with
  | none => .ok ("")
  | some loc =>
    match fenv.try_new_experimental loc (bag_hour_cycle military) with
    | none => .panicked panic_unwrap_msg
    | some dtf =>
      match fenv.format_value dtf date with
      | none => .panicked panic_expect_msg
      | some str => .ok str

/-- The localized `fl!("unknown")` placeholder string. -/
def fl_unknown : String := "unknown"

/-- The `Info` payload of a `Refresh` message. -/
structure Info where
  ntp_enabled : Bool
  timezone_id : Option Nat
  timezone_list : List String
deriving DecidableEq

/-- The `Message` enum of the page. -/
inductive Message where
  | Automatic (enable : Bool)
  | Error (why : String)
  | MilitaryTime (enable : Bool)
  | None
  | FirstDayOfWeek (weekday : Nat)
  | Refresh (info : Info)
  | ShowDate (enable : Bool)
  | Timezone (timezone_id : Nat)
  | UpdateTime
deriving DecidableEq

/-- The `Page` struct: the settings snapshot (the `cosmic_applet_config`
handle is not state; the outcome of its get/set calls lives in the
environment records). -/
structure Page where
  first_day_of_week : Nat
  military_time : Bool
  ntp_enabled : Bool
  show_date_in_top_panel : Bool
  local_time : Option DateTimeSample
  timezone : Option Nat
  timezone_list : List String
  formatted_date : String
deriving DecidableEq

/-- The `Command` value returned by one reducer step: `Command::none()`, or
the future spawned by the `Timezone` branch, which will call
`set_timezone(timezone, true)` and come back as `UpdateTime` or `Error`. -/
inductive Cmd where
  | none
  | timezoneFuture (timezone : String)
deriving DecidableEq

/-- A detached `tokio::task` spawned by one reducer step (the `Automatic`
branch spawns a task calling `set_ntp(enable, true)`). -/
inductive SpawnedTask where
  | none
  | setNtp (enable : Bool)
deriving DecidableEq

/-- Everything one reducer step produces: the new page state, the
`error!`/`tracing::error!` log lines it emitted, the returned command and
the detached task it spawned. -/
structure StepOut where
  page : Page
  logs : List String
  cmd : Cmd
  task : SpawnedTask
deriving DecidableEq

/-- Outcome of the three `cosmic_applet_config.set` calls (true = `Ok`). -/
structure ConfigEnv where
  set_military_time_ok : Bool
  set_first_day_of_week_ok : Bool
  set_show_date_in_top_panel_ok : Bool

/-- Environment of one reducer step: locale and formatter behaviour, the
sample the free function `update_local_time()` returns for the current wall
clock, and the config-store write outcomes. -/
structure Env where
  lenv : LocaleEnv
  fenv : FormatterEnv
  now : DateTimeSample
  config : ConfigEnv

def log_set_military_time_failed : String :=
  "Failed to set config military_time"

def log_set_first_day_of_week_failed : String :=
  "Failed to set config first_day_of_week"

def log_set_show_date_failed : String :=
  "Failed to set config show_date_in_top_panel"

def log_set_timezone_failed : String := "failed to set timezone"

/-- `Page::update_local_time`: install a fresh sample into `local_time`,
then recompute `formatted_date` from it (the `None` arm of the match uses
the localized "unknown" placeholder).  A panic of `format_date`
propagates. -/
def Page.update_local_time (env : Env) (s : Page) : PanicOr Page :=
  let s1 : Page := { s with local_time := some env.now }
  match s1.local_time with
  | some time =>
    match format_date env.lenv env.fenv time s1.military_time with
    | .ok str => .ok { s1 with formatted_date := str }
    | .panicked msg => .panicked msg
  | none => .ok { s1 with formatted_date := fl_unknown }

/-- `Page::update`, the reducer, translated branch for branch.  Failed
config writes are logged (`error!`) and nothing else; the `Timezone` branch
stores the selection unconditionally and only gates the spawned future on
the index resolving to a real entry of `timezone_list`. -/
def Page.update (env : Env) (s : Page) : Message → PanicOr StepOut
  | .Automatic enable =>
    .ok { page := { s with ntp_enabled := enable },
          logs := [], cmd := .none, task := .setNtp enable }
  | .MilitaryTime enable =>
    let s1 : Page := { s with military_time := enable }
    match s1.update_local_time env with
    | .panicked msg => .panicked msg
    | .ok s2 =>
      .ok { page := s2,
            logs := if env.config.set_military_time_ok then []
                    else [log_set_military_time_failed],
            cmd := .none, task := .none }
  | .FirstDayOfWeek weekday =>
    .ok { page := { s with first_day_of_week := weekday },
          logs := if env.config.set_first_day_of_week_ok then []
                  else [log_set_first_day_of_week_failed],
          cmd := .none, task := .none }
  | .ShowDate enable =>
    .ok { page := { s with show_date_in_top_panel := enable },
          logs := if env.config.set_show_date_in_top_panel_ok then []
                  else [log_set_show_date_failed],
          cmd := .none, task := .none }
  | .Timezone timezone_id =>
    let s1 : Page := { s with timezone := some timezone_id }
    match s1.timezone_list.get? timezone_id with
    | some timezone =>
      .ok { page := s1, logs := [], cmd := .timezoneFuture timezone,
            task := .none }
    | none => .ok { page := s1, logs := [], cmd := .none, task := .none }
  | .Error _why =>
    .ok { page := s, logs := [log_set_timezone_failed], cmd := .none,
          task := .none }
  | .UpdateTime =>
    match s.update_local_time env with
    | .panicked msg => .panicked msg
    | .ok s1 => .ok { page := s1, logs := [], cmd := .none, task := .none }
  | .Refresh info =>
    let s1 : Page := { s with ntp_enabled := info.ntp_enabled,
                              timezone_list := info.timezone_list,
                              timezone := info.timezone_id }
    match s1.update_local_time env with
    | .panicked msg => .panicked msg
    | .ok s2 => .ok { page := s2, logs := [], cmd := .none, task := .none }
  | .None => .ok { page := s, logs := [], cmd := .none, task := .none }

/-- Outcome of the async calls made by `on_enter`: success of the zbus
connection and of the proxy construction (with the error text used
otherwise), and the results of the four timedate queries (`none` = the
query failed; each is defaulted with `unwrap_or_default`). -/
structure TimedateEnv where
  connection_ok : Bool
  connection_err : String
  proxy_ok : Bool
  proxy_err : String
  can_ntp : Option Bool
  ntp : Option Bool
  list_timezones : Option (List String)
  timezone : Option String

/-- The `Info` built at the end of `on_enter`: `ntp_enabled` is the
conjunction of the defaulted `can_ntp` and `ntp` queries, `timezone_id` is
`position` of the current timezone string in the fetched list. -/
def on_enter_info (e : TimedateEnv) : Info :=
  let can_ntp := e.can_ntp.getD false
  let ntp_enabled := can_ntp && e.ntp.getD false
  let timezone_list := e.list_timezones.getD []
  let timezone := e.timezone.getD ("")
  { ntp_enabled := ntp_enabled
    timezone_id := timezone_list.findIdx? (fun tz => tz == timezone)
    timezone_list := timezone_list }

/-- `on_enter`: a connection or proxy failure short-circuits to an `Error`
message; otherwise the queries are run, each defaulted on failure, and a
single `Refresh` message is produced. -/
def on_enter (e : TimedateEnv) : Message :=
  if e.connection_ok then
    if e.proxy_ok then .Refresh (on_enter_info e)
    else .Error e.proxy_err
  else .Error e.connection_err

/-- Outcome of the three `cosmic_applet_config.get` calls in
`Page::default` (`none` = read failed, fall back to the documented
default). -/
structure ConfigGetEnv where
  military_time : Option Bool
  first_day_of_week : Option Nat
  show_date_in_top_panel : Option Bool

/-- `Page::default`: config-store reads with fallback defaults
(military 12-hour, first day code 6, show date true), everything else
empty/unset. -/
def Page.default (cfg : ConfigGetEnv) : Page :=
  { first_day_of_week := cfg.first_day_of_week.getD 6
    military_time := cfg.military_time.getD false
    ntp_enabled := false
    show_date_in_top_panel := cfg.show_date_in_top_panel.getD true
    local_time := none
    timezone := none
    timezone_list := []
    formatted_date := "" }

/-- The decode half of the weekday codec: the dropdown selection computed
in `format()` from `page.first_day_of_week`. -/
def decode_first_day (first_day_of_week : Nat) : Option Nat :=
  match first_day_of_week with
  | 4 => some 0
  | 5 => some 1
  | 0 => some 3
  | _ => some 2

/-- The encode half of the weekday codec: the message emitted by the
dropdown callback in `format()` from the selected index. -/
def encode_first_day (v : Nat) : Message :=
  match v with
  | 0 => .FirstDayOfWeek 4
  | 1 => .FirstDayOfWeek 5
  | 3 => .FirstDayOfWeek 0
  | _ => .FirstDayOfWeek 6

/-- Spec-side predicate: the timezone selection, when present, is a valid
index into the timezone list. -/
def selection_in_range (p : Page) : Bool :=
  match p.timezone with
  | some i => decide (i < p.timezone_list.length)
  | none => true

/-! Concrete inputs used by witnesses and counterexamples. -/

def sample0 : DateTimeSample := ⟨2024, 1, 2, 13, 4, 5⟩

/-- A locale environment in which LANG is unset. -/
def lenv_none : LocaleEnv := { lang := none, locale_from_str := fun _ => none }

/-- A locale environment in which LANG is set and parses. -/
def lenv_ok : LocaleEnv :=
  { lang := some ("en_US.UTF-8"), locale_from_str := fun l => some l }

/-- A formatter environment where both icu calls fail. -/
def fenv_fail : FormatterEnv :=
  { try_new_experimental := fun _ _ => none, format_value := fun _ _ => none }

/-- Step environment: no locale, failing formatter, succeeding config
writes. -/
def env0 : Env :=
  { lenv := lenv_none, fenv := fenv_fail, now := sample0,
    config := ⟨true, true, true⟩ }

/-- Step environment in which every config write fails. -/
def env_cfg_fail : Env :=
  { lenv := lenv_none, fenv := fenv_fail, now := sample0,
    config := ⟨false, false, false⟩ }

/-- A page built from `Page::default` with all config reads failing. -/
def page0 : Page := Page.default ⟨none, none, none⟩

/-- Evaluation of `Page::update_local_time` when `format_date` succeeds. -/
theorem update_local_time_eq (env : Env) (s : Page) (str : String)
    (hfmt : format_date env.lenv env.fenv env.now s.military_time =
      .ok str) :
    s.update_local_time env =
      .ok { s with local_time := some env.now, formatted_date := str } := by
  unfold Page.update_local_time
  simp only []
  rw [hfmt]

/-- Evaluation of `Page::update_local_time` when `format_date` panics: the
panic propagates. -/
theorem update_local_time_panic (env : Env) (s : Page) (msg : String)
    (hfmt : format_date env.lenv env.fenv env.now s.military_time =
      .panicked msg) :
    s.update_local_time env = .panicked msg := by
  unfold Page.update_local_time
  simp only []
  rw [hfmt]

/-- Inversion of `Page::update_local_time`: a non-panicking run installs
the fresh sample and the formatter output. -/
theorem update_local_time_inv (env : Env) (s : Page) (p : Page)
    (h : s.update_local_time env = .ok p) :
    p = { s with local_time := some env.now,
                 formatted_date := p.formatted_date } ∧
    format_date env.lenv env.fenv env.now s.military_time =
      .ok p.formatted_date := by
  cases hf : format_date env.lenv env.fenv env.now s.military_time with
  | ok str =>
    rw [update_local_time_eq env s str hf] at h
    cases h
    exact ⟨rfl, by simp⟩
  | panicked msg =>
    rw [update_local_time_panic env s msg hf] at h
    exact PanicOr.noConfusion h

/-- Evaluation of the `MilitaryTime` branch when `format_date` succeeds. -/
theorem update_military_time_eq (env : Env) (s : Page) (b : Bool)
    (str : String)
    (hfmt : format_date env.lenv env.fenv env.now b = .ok str) :
    s.update env (.MilitaryTime b) =
      .ok { page := { s with military_time := b,
                             local_time := some env.now,
                             formatted_date := str },
            logs := if env.config.set_military_time_ok then []
                    else [log_set_military_time_failed],
            cmd := .none, task := .none } := by
  have h1 := update_local_time_eq env { s with military_time := b } str hfmt
  simp only [Page.update, h1]

/-- The `MilitaryTime` branch propagates a `format_date` panic. -/
theorem update_military_time_panic (env : Env) (s : Page) (b : Bool)
    (msg : String)
    (hfmt : format_date env.lenv env.fenv env.now b = .panicked msg) :
    s.update env (.MilitaryTime b) = .panicked msg := by
  have h1 := update_local_time_panic env { s with military_time := b } msg hfmt
  simp only [Page.update, h1]

/-- Evaluation of the `UpdateTime` branch when `format_date` succeeds. -/
theorem update_updatetime_eq (env : Env) (s : Page) (str : String)
    (hfmt : format_date env.lenv env.fenv env.now s.military_time =
      .ok str) :
    s.update env .UpdateTime =
      .ok { page := { s with local_time := some env.now,
                             formatted_date := str },
            logs := [], cmd := .none, task := .none } := by
  have h1 := update_local_time_eq env s str hfmt
  simp only [Page.update, h1]

/-- The `UpdateTime` branch propagates a `format_date` panic. -/
theorem update_updatetime_panic (env : Env) (s : Page) (msg : String)
    (hfmt : format_date env.lenv env.fenv env.now s.military_time =
      .panicked msg) :
    s.update env .UpdateTime = .panicked msg := by
  have h1 := update_local_time_panic env s msg hfmt
  simp only [Page.update, h1]

/-- Evaluation of the `Refresh` branch when `format_date` succeeds. -/
theorem update_refresh_eq (env : Env) (s : Page) (info : Info)
    (str : String)
    (hfmt : format_date env.lenv env.fenv env.now s.military_time =
      .ok str) :
    s.update env (.Refresh info) =
      .ok { page := { s with ntp_enabled := info.ntp_enabled,
                             timezone_list := info.timezone_list,
                             timezone := info.timezone_id,
                             local_time := some env.now,
                             formatted_date := str },
            logs := [], cmd := .none, task := .none } := by
  have h1 := update_local_time_eq env
    { s with ntp_enabled := info.ntp_enabled,
             timezone_list := info.timezone_list,
             timezone := info.timezone_id } str hfmt
  simp only [Page.update, h1]

/-- The `Refresh` branch propagates a `format_date` panic. -/
theorem update_refresh_panic (env : Env) (s : Page) (info : Info)
    (msg : String)
    (hfmt : format_date env.lenv env.fenv env.now s.military_time =
      .panicked msg) :
    s.update env (.Refresh info) = .panicked msg := by
  have h1 := update_local_time_panic env
    { s with ntp_enabled := info.ntp_enabled,
             timezone_list := info.timezone_list,
             timezone := info.timezone_id } msg hfmt
  simp only [Page.update, h1]

/-- Inversion of the `Refresh` branch: a completed (non-panicking) step
installed the payload fields and a fresh formatted sample. -/
theorem update_refresh_inv (env : Env) (s : Page) (info : Info)
    (out : StepOut) (h : s.update env (.Refresh info) = .ok out) :
    out.page.ntp_enabled = info.ntp_enabled ∧
    out.page.timezone = info.timezone_id ∧
    out.page.timezone_list = info.timezone_list ∧
    out.page.local_time = some env.now ∧
    format_date env.lenv env.fenv env.now s.military_time =
      .ok out.page.formatted_date := by
  cases hf : format_date env.lenv env.fenv env.now s.military_time with
  | ok str =>
    rw [update_refresh_eq env s info str hf] at h
    cases h
    exact ⟨rfl, rfl, rfl, rfl, by simp⟩
  | panicked msg =>
    rw [update_refresh_panic env s info msg hf] at h
    exact PanicOr.noConfusion h

/-- Inversion of the `MilitaryTime` branch. -/
theorem update_military_time_inv (env : Env) (s : Page) (b : Bool)
    (out : StepOut) (h : s.update env (.MilitaryTime b) = .ok out) :
    out.page.military_time = b ∧
    out.page.local_time = some env.now ∧
    format_date env.lenv env.fenv env.now b = .ok out.page.formatted_date := by
  cases hf : format_date env.lenv env.fenv env.now b with
  | ok str =>
    rw [update_military_time_eq env s b str hf] at h
    cases h
    exact ⟨rfl, rfl, by simp⟩
  | panicked msg =>
    rw [update_military_time_panic env s b msg hf] at h
    exact PanicOr.noConfusion h

/-- Inversion of the `UpdateTime` branch. -/
theorem update_updatetime_inv (env : Env) (s : Page) (out : StepOut)
    (h : s.update env .UpdateTime = .ok out) :
    out.page.local_time = some env.now ∧
    format_date env.lenv env.fenv env.now s.military_time =
      .ok out.page.formatted_date := by
  cases hf : format_date env.lenv env.fenv env.now s.military_time with
  | ok str =>
    rw [update_updatetime_eq env s str hf] at h
    cases h
    exact ⟨rfl, by simp⟩
  | panicked msg =>
    rw [update_updatetime_panic env s msg hf] at h
    exact PanicOr.noConfusion h

/-- C1: the weekday codec implements exactly the specified lossy table:
decoding an external first-day-of-week code yields index 0 for code 4, 1
for code 5, 3 for code 0 and 2 for every other code; encoding an index
yields code 4 for index 0, 5 for index 1, 0 for index 3 and 6 for every
other index. -/
theorem C1_weekday_codec_table (c i : Nat) :
    decode_first_day 4 = some 0 ∧ decode_first_day 5 = some 1 ∧
    decode_first_day 0 = some 3 ∧
    (c ≠ 4 → c ≠ 5 → c ≠ 0 → decode_first_day c = some 2) ∧
    encode_first_day 0 = .FirstDayOfWeek 4 ∧
    encode_first_day 1 = .FirstDayOfWeek 5 ∧
    encode_first_day 3 = .FirstDayOfWeek 0 ∧
    (i ≠ 0 → i ≠ 1 → i ≠ 3 → encode_first_day i = .FirstDayOfWeek 6) := by
  refine ⟨rfl, rfl, rfl, ?_, rfl, rfl, rfl, ?_⟩
  · intro h4 h5 h0
    match c with
    | 0 => exact absurd rfl h0
    | 4 => exact absurd rfl h4
    | 5 => exact absurd rfl h5
    | 1 => rfl
    | 2 => rfl
    | 3 => rfl
    | n+6 => rfl
  · intro h0 h1 h3
    match i with
    | 0 => exact absurd rfl h0
    | 1 => exact absurd rfl h1
    | 3 => exact absurd rfl h3
    | 2 => rfl
    | n+4 => rfl

/-- Witness for C1 at the concrete inputs 7 (decode) and 2 (encode). -/
theorem C1_weekday_codec_table_witness :
    decode_first_day 7 = some 2 ∧
    encode_first_day 2 = .FirstDayOfWeek 6 :=
  ⟨(C1_weekday_codec_table 7 2).2.2.2.1 (by decide) (by decide) (by decide),
   (C1_weekday_codec_table 7 2).2.2.2.2.2.2.2 (by decide) (by decide)
     (by decide)⟩

/-- C5: the codec round trip is many-to-one, not a bijection: codes 4, 5
and 0 decode to indices 0, 1 and 3 and re-encode to themselves; every
other code decodes to index 2, and index 2 encodes to 6, so all such codes
collapse to Sunday after a round trip. -/
theorem C5_weekday_roundtrip_collapse (c : Nat) :
    decode_first_day 4 = some 0 ∧ decode_first_day 5 = some 1 ∧
    decode_first_day 0 = some 3 ∧
    (decode_first_day 4).map encode_first_day = some (.FirstDayOfWeek 4) ∧
    (decode_first_day 5).map encode_first_day = some (.FirstDayOfWeek 5) ∧
    (decode_first_day 0).map encode_first_day = some (.FirstDayOfWeek 0) ∧
    (c ≠ 4 → c ≠ 5 → c ≠ 0 →
      decode_first_day c = some 2 ∧
      (decode_first_day c).map encode_first_day =
        some (.FirstDayOfWeek 6)) ∧
    encode_first_day 2 = .FirstDayOfWeek 6 := by
  refine ⟨rfl, rfl, rfl, rfl, rfl, rfl, ?_, rfl⟩
  intro h4 h5 h0
  match c with
  | 0 => exact absurd rfl h0
  | 4 => exact absurd rfl h4
  | 5 => exact absurd rfl h5
  | 1 => exact ⟨rfl, rfl⟩
  | 2 => exact ⟨rfl, rfl⟩
  | 3 => exact ⟨rfl, rfl⟩
  | n+6 => exact ⟨rfl, rfl⟩

/-- Witness for C5 at the concrete code 1 (a "legitimate" weekday code
outside the table): it collapses to Sunday. -/
theorem C5_weekday_roundtrip_collapse_witness :
    decode_first_day 1 = some 2 ∧
    (decode_first_day 1).map encode_first_day = some (.FirstDayOfWeek 6) :=
  (C5_weekday_roundtrip_collapse 1).2.2.2.2.2.2.1 (by decide) (by decide)
    (by decide)

/-- A timedate environment whose service reports it cannot do NTP while
claiming NTP is active. -/
def tenv_no_ntp : TimedateEnv :=
  { connection_ok := true, connection_err := "", proxy_ok := true,
    proxy_err := "", can_ntp := some false, ntp := some true,
    list_timezones := some ["UTC"], timezone := some ("UTC") }

/-- A timedate environment whose current timezone is missing from the
fetched list. -/
def tenv_missing_tz : TimedateEnv :=
  { connection_ok := true, connection_err := "", proxy_ok := true,
    proxy_err := "", can_ntp := some true, ntp := some true,
    list_timezones := some ["America/Chicago"], timezone := some ("UTC") }

/-- A fully healthy timedate environment with a one-entry list. -/
def tenv_utc : TimedateEnv :=
  { connection_ok := true, connection_err := "", proxy_ok := true,
    proxy_err := "", can_ntp := some true, ntp := some true,
    list_timezones := some ["UTC"], timezone := some ("UTC") }

/-- A concrete `Refresh` payload. -/
def info0 : Info :=
  { ntp_enabled := true, timezone_id := some 0, timezone_list := ["UTC"] }

/-- `page0` after a `Refresh (on_enter_info tenv_utc)` step under `env0`. -/
def refresh_out_utc : StepOut :=
  { page := { page0 with ntp_enabled := true, timezone_list := ["UTC"],
                         timezone := some 0, local_time := some sample0,
                         formatted_date := "" },
    logs := [], cmd := .none, task := .none }

/-- C9: a Fault (`Error`) message leaves every field of the page unchanged,
returns no command and spawns no task; its only effect is the diagnostic
log line, and the branch is total (it cannot panic the reducer). -/
theorem C9_fault_frame (env : Env) (s : Page) (why : String) :
    s.update env (.Error why) =
      .ok { page := s, logs := [log_set_timezone_failed], cmd := .none,
            task := .none } := rfl

/-- C8: persisted fields are updated optimistically and never rolled back:
the post-step page is the same whether the config write succeeds or fails;
a failed write only adds a log line and no command or message is ever
produced. -/
theorem C8_optimistic_persistence (env : Env) (s : Page) (e m : Bool)
    (w : Nat) (str : String)
    (hfmt : format_date env.lenv env.fenv env.now m = .ok str) :
    s.update env (.ShowDate e) =
      .ok { page := { s with show_date_in_top_panel := e },
            logs := if env.config.set_show_date_in_top_panel_ok then []
                    else [log_set_show_date_failed],
            cmd := .none, task := .none } ∧
    s.update env (.FirstDayOfWeek w) =
      .ok { page := { s with first_day_of_week := w },
            logs := if env.config.set_first_day_of_week_ok then []
                    else [log_set_first_day_of_week_failed],
            cmd := .none, task := .none } ∧
    s.update env (.MilitaryTime m) =
      .ok { page := { s with military_time := m,
                             local_time := some env.now,
                             formatted_date := str },
            logs := if env.config.set_military_time_ok then []
                    else [log_set_military_time_failed],
            cmd := .none, task := .none } :=
  ⟨rfl, rfl, update_military_time_eq env s m str hfmt⟩

/-- Witness for C8: with every config write failing, the in-memory values
stand and only log lines are produced. -/
theorem C8_optimistic_persistence_witness :
    page0.update env_cfg_fail (.ShowDate true) =
      .ok { page := { page0 with show_date_in_top_panel := true },
            logs := [log_set_show_date_failed],
            cmd := .none, task := .none } ∧
    page0.update env_cfg_fail (.MilitaryTime true) =
      .ok { page := { page0 with military_time := true,
                                 local_time := some sample0,
                                 formatted_date := "" },
            logs := [log_set_military_time_failed],
            cmd := .none, task := .none } := by
  have h := C8_optimistic_persistence env_cfg_fail page0 true true 4 ("") rfl
  exact ⟨h.1, h.2.2⟩

/-- C3: the refresh sequence computes `ntp_enabled` as the conjunction of
the `can_ntp` and `ntp` query results, each defaulted to false on failure;
applying a `Refreshed` message built with `can_ntp` false (or failed)
leaves `ntp_enabled` false regardless of the reported active-state
value. -/
theorem C3_refresh_ntp_conjunction (e : TimedateEnv) (env : Env) (s : Page)
    (out : StepOut) :
    (on_enter_info e).ntp_enabled =
      (e.can_ntp.getD false && e.ntp.getD false) ∧
    (e.can_ntp.getD false = false →
      s.update env (.Refresh (on_enter_info e)) = .ok out →
      out.page.ntp_enabled = false) := by
  constructor
  · rfl
  · intro hcan hok
    have h := (update_refresh_inv env s (on_enter_info e) out hok).1
    rw [h]
    show (e.can_ntp.getD false && e.ntp.getD false) = false
    rw [hcan]
    simp

/-- Witness for C3: the service reports active NTP but no NTP capability;
after the refresh step `ntp_enabled` is false. -/
theorem C3_refresh_ntp_conjunction_witness :
    tenv_no_ntp.ntp.getD false = true ∧
    (let out : StepOut :=
      { page := { page0 with timezone_list := ["UTC"], timezone := some 0,
                             local_time := some sample0,
                             formatted_date := "" },
        logs := [], cmd := .none, task := .none }
     out.page.ntp_enabled = false) :=
  ⟨rfl,
   (C3_refresh_ntp_conjunction tenv_no_ntp env0 page0 _).2 rfl rfl⟩

/-- C4: the refresh sequence resolves the timezone selection by linear
lookup: a selection `some i` points at the first entry of the fetched list
equal to the reported current timezone string; if the list does not
contain that string the selection is `None`, and applying the resulting
`Refreshed` message yields `timezone = none`. -/
theorem C4_refresh_timezone_lookup (e : TimedateEnv) (env : Env) (s : Page)
    (out : StepOut) (i : Nat) :
    ((on_enter_info e).timezone_id = some i →
      (e.list_timezones.getD []).get? i = some (e.timezone.getD ("")) ∧
      ∀ j, j < i →
        (e.list_timezones.getD []).get? j ≠ some (e.timezone.getD (""))) ∧
    ((e.timezone.getD ("")) ∉ e.list_timezones.getD [] →
      (on_enter_info e).timezone_id = none ∧
      (s.update env (.Refresh (on_enter_info e)) = .ok out →
        out.page.timezone = none)) := by
  constructor
  · intro hsome
    have hfind : (e.list_timezones.getD []).findIdx?
        (fun tz => tz == e.timezone.getD ("")) = some i := hsome
    rw [List.findIdx?_eq_some_iff_findIdx_eq] at hfind
    obtain ⟨hlen, hidx⟩ := hfind
    subst hidx
    refine ⟨?_, ?_⟩
    · rw [List.get?_eq_getElem?, List.getElem?_eq_getElem hlen]
      have hp := @List.findIdx_getElem _
        (fun tz => tz == e.timezone.getD ("")) (e.list_timezones.getD [])
        hlen
      simp only [beq_iff_eq] at hp
      rw [hp]
    · intro j hj hc
      have hjl : j < (e.list_timezones.getD []).length := Nat.lt_trans hj hlen
      rw [List.get?_eq_getElem?, List.getElem?_eq_getElem hjl] at hc
      have hnp := @List.not_of_lt_findIdx _
        (fun tz => tz == e.timezone.getD ("")) (e.list_timezones.getD [])
        j hj
      simp only [Option.some_inj] at hc
      simp [hc] at hnp
  · intro hnotin
    have hnone : (e.list_timezones.getD []).findIdx?
        (fun tz => tz == e.timezone.getD ("")) = none := by
      rw [List.findIdx?_eq_none_iff]
      intro x hx
      simp only [beq_eq_false_iff_ne]
      intro hxc
      exact hnotin (hxc ▸ hx)
    refine ⟨hnone, ?_⟩
    intro hok
    have h := (update_refresh_inv env s (on_enter_info e) out hok).2.1
    rw [h]
    exact hnone

/-- Witness for C4: the current timezone is missing from the fetched list,
so the selection is `None` both in the payload and after the step. -/
theorem C4_refresh_timezone_lookup_witness :
    (on_enter_info tenv_missing_tz).timezone_id = none ∧
    (let out : StepOut :=
      { page := { page0 with ntp_enabled := true,
                             timezone_list := ["America/Chicago"],
                             timezone := none,
                             local_time := some sample0,
                             formatted_date := "" },
        logs := [], cmd := .none, task := .none }
     out.page.timezone = none) := by
  have h := (C4_refresh_timezone_lookup tenv_missing_tz env0 page0
    { page := { page0 with ntp_enabled := true,
                           timezone_list := ["America/Chicago"],
                           timezone := none,
                           local_time := some sample0,
                           formatted_date := "" },
      logs := [], cmd := .none, task := .none } 0).2 (by decide)
  exact ⟨h.1, h.2 rfl⟩

/-- C6: `formatted_date` is never stale relative to `local_time` and
`military_time`: each of the three mutating steps (`MilitaryTime`,
`UpdateTime`/Tick, `Refresh`) recomputes it within the same step, so the
post-step state already shows the formatter output under the new flag and
the fresh sample. -/
theorem C6_formatted_date_not_stale (env : Env) (s : Page) (b : Bool)
    (info : Info) (strb strs : String)
    (hb : format_date env.lenv env.fenv env.now b = .ok strb)
    (hs : format_date env.lenv env.fenv env.now s.military_time =
      .ok strs) :
    s.update env (.MilitaryTime b) =
      .ok { page := { s with military_time := b,
                             local_time := some env.now,
                             formatted_date := strb },
            logs := if env.config.set_military_time_ok then []
                    else [log_set_military_time_failed],
            cmd := .none, task := .none } ∧
    s.update env .UpdateTime =
      .ok { page := { s with local_time := some env.now,
                             formatted_date := strs },
            logs := [], cmd := .none, task := .none } ∧
    s.update env (.Refresh info) =
      .ok { page := { s with ntp_enabled := info.ntp_enabled,
                             timezone_list := info.timezone_list,
                             timezone := info.timezone_id,
                             local_time := some env.now,
                             formatted_date := strs },
            logs := [], cmd := .none, task := .none } :=
  ⟨update_military_time_eq env s b strb hb,
   update_updatetime_eq env s strs hs,
   update_refresh_eq env s info strs hs⟩

/-- Witness for C6: after `MilitaryTime true` under `env0` the snapshot
already holds the recomputed date. -/
theorem C6_formatted_date_not_stale_witness :
    page0.update env0 (.MilitaryTime true) =
      .ok { page := { page0 with military_time := true,
                                 local_time := some sample0,
                                 formatted_date := "" },
            logs := [], cmd := .none, task := .none } :=
  (C6_formatted_date_not_stale env0 page0 true info0 ("") ("") rfl rfl).1

/-- C10: every completed `MilitaryTime`, `UpdateTime` (Tick) or `Refresh`
step leaves `local_time` holding the fresh sample (never `None`), so the
placeholder arm of the recomputation is unreachable and `formatted_date`
is exactly the formatter output on that sample. -/
theorem C10_local_time_always_some (env : Env) (s : Page) (b : Bool)
    (info : Info) (o1 o2 o3 : StepOut)
    (h1 : s.update env (.MilitaryTime b) = .ok o1)
    (h2 : s.update env .UpdateTime = .ok o2)
    (h3 : s.update env (.Refresh info) = .ok o3) :
    (o1.page.local_time = some env.now ∧
      format_date env.lenv env.fenv env.now b =
        .ok o1.page.formatted_date) ∧
    (o2.page.local_time = some env.now ∧
      format_date env.lenv env.fenv env.now s.military_time =
        .ok o2.page.formatted_date) ∧
    (o3.page.local_time = some env.now ∧
      format_date env.lenv env.fenv env.now s.military_time =
        .ok o3.page.formatted_date) :=
  ⟨⟨(update_military_time_inv env s b o1 h1).2.1,
    (update_military_time_inv env s b o1 h1).2.2⟩,
   update_updatetime_inv env s o2 h2,
   ⟨(update_refresh_inv env s info o3 h3).2.2.2.1,
    (update_refresh_inv env s info o3 h3).2.2.2.2⟩⟩

/-- Witness for C10 under `env0` on `page0` for all three messages. -/
theorem C10_local_time_always_some_witness :
    (let o1 : StepOut :=
      { page := { page0 with military_time := true,
                             local_time := some sample0,
                             formatted_date := "" },
        logs := [], cmd := .none, task := .none }
     o1.page.local_time = some sample0) ∧
    (let o2 : StepOut :=
      { page := { page0 with local_time := some sample0,
                             formatted_date := "" },
        logs := [], cmd := .none, task := .none }
     o2.page.local_time = some sample0) ∧
    (let o3 : StepOut :=
      { page := { page0 with ntp_enabled := true, timezone_list := ["UTC"],
                             timezone := some 0,
                             local_time := some sample0,
                             formatted_date := "" },
        logs := [], cmd := .none, task := .none }
     o3.page.local_time = some sample0) := by
  have h := C10_local_time_always_some env0 page0 true info0
    { page := { page0 with military_time := true,
                           local_time := some sample0,
                           formatted_date := "" },
      logs := [], cmd := .none, task := .none }
    { page := { page0 with local_time := some sample0,
                           formatted_date := "" },
      logs := [], cmd := .none, task := .none }
    { page := { page0 with ntp_enabled := true, timezone_list := ["UTC"],
                           timezone := some 0,
                           local_time := some sample0,
                           formatted_date := "" },
      logs := [], cmd := .none, task := .none }
    rfl rfl rfl
  exact ⟨h.1.1, h.2.1.1, h.2.2.1⟩

/-- C2 counterexample: the reducer stores an out-of-range selection.  On a
page with an empty timezone list, the message `Timezone 0` sets the
selection to `some 0`, which is not a valid index into the (unchanged,
empty) list, refuting the claim for arbitrary messages. -/
theorem C2_counterexample :
    page0.update env0 (.Timezone 0) =
      .ok { page := { page0 with timezone := some 0 },
            logs := [], cmd := .none, task := .none } ∧
    selection_in_range { page0 with timezone := some 0 } = false :=
  ⟨rfl, rfl⟩

/-- C2 amended: the `Timezone` branch stores `some i` without any bounds
check, so the invariant holds exactly when the delivered index is in range
(the precondition the dropdown guarantees); and a `Refreshed` message
built by the refresh sequence carries a selection recomputed by looking up
the current timezone string in the new list, hence in range whenever
present. -/
theorem C2_selection_validity (env : Env) (s : Page) (i : Nat)
    (e : TimedateEnv) (o1 o2 : StepOut) :
    (i < s.timezone_list.length →
      s.update env (.Timezone i) = .ok o1 →
      selection_in_range o1.page = true) ∧
    (s.update env (.Refresh (on_enter_info e)) = .ok o2 →
      o2.page.timezone = (e.list_timezones.getD []).findIdx?
        (fun tz => tz == e.timezone.getD ("")) ∧
      selection_in_range o2.page = true) := by
  constructor
  · intro hi hok
    cases hg : s.timezone_list.get? i with
    | some tz =>
      simp only [Page.update, hg] at hok
      injection hok with hout
      subst hout
      simp [selection_in_range, hi]
    | none =>
      simp only [Page.update, hg] at hok
      injection hok with hout
      subst hout
      simp [selection_in_range, hi]
  · intro hok
    obtain ⟨hntp, htz, hlist, hlt, hfmt⟩ :=
      update_refresh_inv env s (on_enter_info e) o2 hok
    have htz' : o2.page.timezone = (e.list_timezones.getD []).findIdx?
        (fun tz => tz == e.timezone.getD ("")) := htz
    refine ⟨htz', ?_⟩
    cases hf : (e.list_timezones.getD []).findIdx?
        (fun tz => tz == e.timezone.getD ("")) with
    | none =>
      simp [selection_in_range, htz', hf]
    | some k =>
      have hk := hf
      rw [List.findIdx?_eq_some_iff_findIdx_eq] at hk
      have hlist' : o2.page.timezone_list = e.list_timezones.getD [] := hlist
      simp only [selection_in_range, htz', hf, hlist', decide_eq_true_eq]
      exact hk.1

/-- Witness for C2: an in-range `Timezone` selection and a refresh-built
selection are both valid indices. -/
theorem C2_selection_validity_witness :
    (let o1 : StepOut :=
      { page := { page0 with timezone_list := ["UTC"], timezone := some 0 },
        logs := [], cmd := .timezoneFuture ("UTC"), task := .none }
     selection_in_range o1.page = true) ∧
    selection_in_range refresh_out_utc.page = true := by
  have h := C2_selection_validity env0
    { page0 with timezone_list := ["UTC"] } 0 tenv_utc
    { page := { page0 with timezone_list := ["UTC"], timezone := some 0 },
      logs := [], cmd := .timezoneFuture ("UTC"), task := .none }
    refresh_out_utc
  exact ⟨h.1 (by decide) rfl, (h.2 rfl).2⟩

/-- C7 counterexample: with a determinable locale and a failing formatter
construction, `format_date` panics (the `unwrap` in the source) instead of
falling back to the empty string. -/
theorem C7_counterexample :
    format_date lenv_ok fenv_fail sample0 true =
      .panicked panic_unwrap_msg ∧
    format_date lenv_ok fenv_fail sample0 true ≠ .ok ("") := by
  refine ⟨rfl, fun h => ?_⟩
  rw [show format_date lenv_ok fenv_fail sample0 true =
    .panicked panic_unwrap_msg from rfl] at h
  exact PanicOr.noConfusion h

/-- C7 amended: if the locale cannot be determined from the environment,
`format_date` returns the empty string without aborting; but a formatting
failure (formatter construction or value formatting) panics — aborting the
page — rather than falling back to the empty string. -/
theorem C7_formatter_locale_fallback_panic (lenv : LocaleEnv)
    (fenv : FormatterEnv) (d : DateTimeSample) (m : Bool) (loc : String)
    (dtf : Formatter) :
    (locale lenv = none → format_date lenv fenv d m = .ok ("")) ∧
    (locale lenv = some loc →
      fenv.try_new_experimental loc (bag_hour_cycle m) = none →
      format_date lenv fenv d m = .panicked panic_unwrap_msg) ∧
    (locale lenv = some loc →
      fenv.try_new_experimental loc (bag_hour_cycle m) = some dtf →
      fenv.format_value dtf d = none →
      format_date lenv fenv d m = .panicked panic_expect_msg) := by
  refine ⟨?_, ?_, ?_⟩
  · intro h
    unfold format_date
    simp only [h]
  · intro h1 h2
    unfold format_date
    simp only [h1, h2]
  · intro h1 h2 h3
    unfold format_date
    simp only [h1, h2, h3]

/-- Witness for C7: LANG unset yields the empty string; a failing
formatter construction under a parsed locale yields a panic. -/
theorem C7_formatter_locale_fallback_panic_witness :
    format_date lenv_none fenv_fail sample0 true = .ok ("") ∧
    format_date lenv_ok fenv_fail sample0 false =
      .panicked panic_unwrap_msg :=
  ⟨(C7_formatter_locale_fallback_panic lenv_none fenv_fail sample0 true
      ("") 0).1 rfl,
   (C7_formatter_locale_fallback_panic lenv_ok fenv_fail sample0 false
      ("en_US") 0).2.1 rfl rfl⟩

end TimeDate
